import Mathlib

/-!
Verification of the retrieval layer of the voc-agentic-copilot repository.

The development shallowly embeds the retrieval façade
(`scripts/search_feedback.py`), the duplicate query builder
(`src/agents/retrieval.py`), the CSV ingestion job
(`scripts/ingest_feedback.py`) and the two templated generators
(`scripts/pm_agent.py`, `scripts/weekly_pm_brief.py`).

External effects are made explicit:
* the embedding provider is a parameter `embedFn : String → List ℚ`, and the
  vector-distance operator of the store a parameter
  `dist : List ℚ → List ℚ → ℚ` (floats are modelled as rationals);
* the store is a parameter `table : List FeedbackRow`; executing the
  similarity query is embedded as filtering, sorting by ascending distance
  and truncating to the limit, following the SQL text in
  `src/agents/retrieval.py`;
* environment variables are a `Env` record of optional strings;
* a Python `raise` is an `Except.error`;
* each search additionally reports how many embedding-provider calls and
  store queries it performed (`CallLog`), so that short-circuit claims are
  statable.
-/

namespace VoC

/-- A Python value as it appears in DB result rows and result dicts.
Floats are modelled as rationals. -/
inductive Value where
  | vNone
  | vInt (n : Int)
  | vNum (q : ℚ)
  | vStr (s : String)
deriving DecidableEq, Repr

instance {ε α : Type} [DecidableEq ε] [DecidableEq α] : DecidableEq (Except ε α) := fun x y =>
  match x, y with
  | .ok a, .ok b => if h : a = b then .isTrue (by rw [h]) else .isFalse (by simp [h])
  | .error a, .error b => if h : a = b then .isTrue (by rw [h]) else .isFalse (by simp [h])
  | .ok _, .error _ => .isFalse (by simp)
  | .error _, .ok _ => .isFalse (by simp)

/-- Models Python `str.strip()`: drop whitespace from both ends.  Written on
the character list so that it evaluates inside the kernel. -/
def pyStrip (s : String) : String :=
  String.mk (((s.data.dropWhile Char.isWhitespace).reverse.dropWhile Char.isWhitespace).reverse)

/-- Digits of a numeral to a natural number. -/
def digitsToNat (l : List Char) : Nat :=
  l.foldl (fun acc c => acc * 10 + (c.toNat - 48)) 0

/-- Models Python `float(s)` on strings: optional sign, decimal digits with an
optional fractional part (exponents and inf/nan are not used by this
repository's data). Returns `none` when Python would raise `ValueError`. -/
def parseFloatStr (s : String) : Option ℚ :=
  let t := (pyStrip s).data
  let core :=
    match t with
    | '-' :: cs => some ((-1 : ℚ), cs)
    | '+' :: cs => some ((1 : ℚ), cs)
    | cs => some ((1 : ℚ), cs)
  match core with
  | some (sign, rest) =>
    let ip := rest.takeWhile Char.isDigit
    let after := rest.dropWhile Char.isDigit
    match after with
    | [] =>
      if ip.isEmpty then none
      else some (sign * (digitsToNat ip : ℚ))
    | '.' :: frac =>
      if frac.all Char.isDigit && !(ip.isEmpty && frac.isEmpty) then
        some (sign * ((digitsToNat ip : ℚ) +
          (digitsToNat frac : ℚ) / ((10 : ℚ) ^ frac.length)))
      else none
    | _ => none
  | none => none

/-- Models Python `float(x)`: numbers pass through, strings are parsed,
`None` raises a `TypeError`, a malformed string raises a `ValueError`. -/
def pyFloat : Value → Except String ℚ
  | .vNum q => .ok q
  | .vInt n => .ok (n : ℚ)
  | .vStr s =>
    match parseFloatStr s with
    | some q => .ok q
    | none => .error ("ValueError: could not convert string to float: " ++ s)
  | .vNone => .error "TypeError: float() argument must be a string or a real number, not NoneType"

/-- Look up a key in a dict modelled as an association list. -/
def getKey (r : List (String × Value)) (k : String) : Option Value :=
  match r with
  | [] => none
  | (k', v) :: rest => if k' = k then some v else getKey rest k

/-- The result-row mapping of `scripts/search_feedback.py` (lines 60-68):
a row unpacks as `(id_, content, country, platform, rating, similarity)` and
becomes the dict
`{id, text, country, platform, rating, similarity: float(similarity)}`.
A row of the wrong arity raises (tuple unpacking), and `float` on an
unparseable similarity raises. -/
def map_row (r : List Value) : Except String (List (String × Value)) :=
  match r with
  | [id_, content, country, platform, rating, similarity] =>
    match pyFloat similarity with
    | .ok q =>
      .ok [("id", id_), ("text", content), ("country", country),
           ("platform", platform), ("rating", rating),
           ("similarity", .vNum q)]
    | .error e => .error e
  | _ => .error "ValueError: not enough values to unpack"

/-- The `for ... in rows: results.append(...)` loop of
`scripts/search_feedback.py`: map every row in order, propagating the first
raised exception. -/
def map_rows : List (List Value) → Except String (List (List (String × Value)))
  | [] => .ok []
  | r :: rs =>
    match map_row r with
    | .ok m =>
      match map_rows rs with
      | .ok ms => .ok (m :: ms)
      | .error e => .error e
    | .error e => .error e

example : map_rows [[.vInt 1, .vStr "t", .vNone, .vNone, .vNone, .vNum (1/2)]] =
    .ok [[("id", .vInt 1), ("text", .vStr "t"), ("country", .vNone),
          ("platform", .vNone), ("rating", .vNone), ("similarity", .vNum (1/2))]] := rfl

example : pyFloat (.vStr "abc") =
    .error "ValueError: could not convert string to float: abc" := by decide

/-- The process environment: the variables the retrieval layer reads via
`os.getenv`. -/
structure Env where
  SUPABASE_DB_URL : Option String
  OPENAI_API_KEY : Option String
  OPENAI_EMBED_MODEL : Option String
deriving DecidableEq, Repr

/-- Python truthiness of an `os.getenv` result (`if not db_url`): `None` and
the empty string are falsy. -/
def truthy : Option String → Bool
  | none => false
  | some s => s ≠ ""

/-- A persisted row of the `public.feedback` table, as written by
`scripts/ingest_feedback.py`. -/
structure FeedbackRow where
  id : Value
  source : Value
  country : Value
  platform : Value
  rating : Value
  user_type : Value
  text : String
  embedding : List ℚ
deriving DecidableEq, Repr

/-- Insert into a list that is sorted by ascending `key`. -/
def insertByKey {α : Type} (key : α → ℚ) (x : α) : List α → List α
  | [] => [x]
  | y :: ys => if key x ≤ key y then x :: y :: ys else y :: insertByKey key x ys

/-- Sort by ascending `key`: a deterministic realization of the store's
`order by` over the vector-distance expression. -/
def sortByKey {α : Type} (key : α → ℚ) : List α → List α
  | [] => []
  | x :: xs => insertByKey key x (sortByKey key xs)

/-- The column of a stored row that an equality filter on the given key
compares against. -/
def fieldOf (r : FeedbackRow) : String → Value
  | "country" => r.country
  | "platform" => r.platform
  | "user_type" => r.user_type
  | _ => .vNone

/-- Does a row satisfy every compiled equality predicate (`field = value`,
AND-conjoined)? -/
def rowMatches (preds : List (String × String)) (r : FeedbackRow) : Bool :=
  preds.all (fun p => fieldOf r p.1 == .vStr p.2)

/-- Executes the similarity query against the store, following the SQL text
of `src/agents/retrieval.py` (lines 36-48): keep the rows satisfying the
WHERE clause, `order by embedding <=> %(q_emb)s` ascending, `limit %(k)s`. -/
def runQuery (table : List FeedbackRow) (dist : List ℚ → List ℚ → ℚ)
    (qvec : List ℚ) (preds : List (String × String)) (k : Nat) : List FeedbackRow :=
  (sortByKey (fun r => dist r.embedding qvec) (table.filter (rowMatches preds))).take k

/-- Is an optional filter value active, i.e. neither `None` nor blank after
stripping (`if platform and platform.strip():` in `src/agents/retrieval.py`;
the same collapsing rule the spec states for the store-side filters). -/
def isActive (o : Option String) : Bool :=
  pyStrip (o.getD "") ≠ ""

/-- Modelled from the spec: the filter compilation of the `match_feedback`
SQL function invoked by `scripts/search_feedback.py` — its body is not under
`src/`.  Spec §4.2: a key whose value is `None` or empty/whitespace-only
"must NOT be compiled into an equality clause"; an active key becomes one
exact-match equality predicate, the predicates AND-conjoined. -/
def matchFeedbackPreds (country platform user_type : Option String) :
    List (String × String) :=
  (if isActive country then [("country", country.getD "")] else []) ++
  (if isActive platform then [("platform", platform.getD "")] else []) ++
  (if isActive user_type then [("user_type", user_type.getD "")] else [])

/-- Modelled from the spec: the `match_feedback` SQL function called by
`scripts/search_feedback.py` (its body is not under `src/`).  It returns
rows unpacking as `(id_, content, country, platform, rating, similarity)`
(the order documented at `scripts/search_feedback.py` line 60), "in
similarity order" and limited to `top_k` (spec §6), with optional equality
filters; the similarity is scored as `1 − distance`, the convention of the
in-repo SQL in `src/agents/retrieval.py`. -/
def match_feedback (table : List FeedbackRow) (dist : List ℚ → List ℚ → ℚ)
    (qvec : List ℚ) (k : Nat) (country platform user_type : Option String) :
    List (List Value) :=
  (runQuery table dist qvec (matchFeedbackPreds country platform user_type) k).map
    (fun r => [r.id, .vStr r.text, r.country, r.platform, r.rating,
               .vNum (1 - dist r.embedding qvec)])

/-- How many embedding-provider calls and store queries one invocation
performed. -/
structure CallLog where
  providerCalls : Nat
  storeCalls : Nat
deriving DecidableEq, Repr

/-- The retrieval façade `search_feedback` of `scripts/search_feedback.py`
(the implementation `app/app.py` imports).  In source order: check
`SUPABASE_DB_URL` (lines 32-34), short-circuit on a blank question
(lines 36-38), embed — inside which `get_client` raises when
`OPENAI_API_KEY` is missing, before any provider call (lines 10-17, 40) —
then query `match_feedback` and map the rows (lines 42-69). -/
def search_feedback (env : Env) (embedFn : String → List ℚ)
    (dist : List ℚ → List ℚ → ℚ) (table : List FeedbackRow)
    (query : Option String) (top_k : Nat)
    (country platform user_type : Option String) :
    Except String (List (List (String × Value))) × CallLog :=
  if truthy env.SUPABASE_DB_URL = false then
    (.error "Missing SUPABASE_DB_URL in .env", ⟨0, 0⟩)
  else
    let q := pyStrip (query.getD "")
    if q = "" then (.ok [], ⟨0, 0⟩)
    else if truthy env.OPENAI_API_KEY = false then
      (.error "Missing OPENAI_API_KEY in .env", ⟨0, 0⟩)
    else
      let qvec := embedFn q
      let rows := match_feedback table dist qvec top_k country platform user_type
      match map_rows rows with
      | .ok results => (.ok results, ⟨1, 1⟩)
      | .error e => (.error e, ⟨1, 1⟩)

namespace Retrieval

/-- The filter construction of `src/agents/retrieval.py` (lines 23-33): a
`platform`/`country` argument that is `None` or strips to the empty string
appends no clause; an active one appends the fragment `field = %(field)s`
with the stripped value bound. -/
def buildFilters (platform country : Option String) : List (String × String) :=
  (if isActive platform then [("platform", pyStrip (platform.getD ""))] else []) ++
  (if isActive country then [("country", pyStrip (country.getD ""))] else [])

/-- `where_clause` (line 34): `"where " + " and ".join(filters)` when some
filter is active, the empty string otherwise. -/
def where_clause (filters : List (String × String)) : String :=
  if filters.isEmpty then ""
  else "where " ++ String.intercalate " and "
    (filters.map (fun f => f.1 ++ " = %(" ++ f.1 ++ ")s"))

/-- The duplicate `search_feedback` of `src/agents/retrieval.py`: it embeds
the question unconditionally (line 21 — no blank-question short-circuit and
no configuration check), builds the filters, connects (`psycopg.connect`
raises when `SUPABASE_DB_URL` is unset — only after the provider was already
called), runs the query and maps rows
`(id_, country_, platform_, rating_, text_, score_)` to dicts keyed
`id, country, platform, rating, text, score` (lines 55-64). -/
def search_feedback (env : Env) (embedFn : String → List ℚ)
    (dist : List ℚ → List ℚ → ℚ) (table : List FeedbackRow)
    (question : String) (top_k : Nat) (platform country : Option String) :
    Except String (List (List (String × Value))) × CallLog :=
  let q_emb := embedFn question
  let filters := buildFilters platform country
  if truthy env.SUPABASE_DB_URL = false then
    (.error "psycopg.OperationalError: missing connection string", ⟨1, 0⟩)
  else
    let ranked := runQuery table dist q_emb filters top_k
    (.ok (ranked.map (fun r =>
      [("id", r.id), ("country", r.country), ("platform", r.platform),
       ("rating", r.rating), ("text", .vStr r.text),
       ("score", .vNum (1 - dist r.embedding q_emb))])), ⟨1, 1⟩)

end Retrieval

/-- `r.get(k)` on a `csv.DictReader` row. -/
def csvGet (r : List (String × String)) (k : String) : Option String :=
  match r with
  | [] => none
  | (k', v) :: rest => if k' = k then some v else csvGet rest k

/-- Python `x or default` on an optional string: `None` and `""` fall back to
the default. -/
def orElseStr (o : Option String) (d : String) : String :=
  match o with
  | none => d
  | some s => if s = "" then d else s

/-- Python `s or None`: the empty string collapses to `None`. -/
def orNone (s : String) : Value :=
  if s = "" then .vNone else .vStr s

/-- Python `str.isdigit` (ASCII digits, as in the seed CSV). -/
def isDigitStr (s : String) : Bool :=
  !s.data.isEmpty && s.data.all Char.isDigit

/-- The tuple `scripts/ingest_feedback.py` inserts (lines 66-74):
`(source, country, platform, rating, user_type, created_at, text, embedding)`. -/
structure InsertRow where
  source : String
  country : Value
  platform : Value
  rating : Value
  user_type : Value
  created_at : Value
  text : String
  embedding : List ℚ
deriving DecidableEq, Repr

/-- One iteration of the ingestion loop (`scripts/ingest_feedback.py`
lines 42-76): strip the `text` field, skip the row when it is empty,
otherwise embed the text and build the inserted tuple with the documented
defaults. -/
def ingestRow (embedFn : String → List ℚ) (r : List (String × String)) :
    Option InsertRow :=
  let text := pyStrip (orElseStr (csvGet r "text") "")
  if text = "" then none
  else
    let emb := embedFn text
    let source := pyStrip (orElseStr (csvGet r "source") "app_reviews")
    let country := orNone (pyStrip (orElseStr (csvGet r "country") ""))
    let platform := orNone (pyStrip (orElseStr (csvGet r "platform") ""))
    let user_type := orNone (pyStrip (orElseStr (csvGet r "user_type") ""))
    let rating_raw := pyStrip (orElseStr (csvGet r "rating") "")
    let rating := if isDigitStr rating_raw then
        Value.vInt (digitsToNat rating_raw.data) else Value.vNone
    let created_at_raw := pyStrip (orElseStr (csvGet r "created_at") "")
    let created_at := orNone created_at_raw
    some ⟨source, country, platform, rating, user_type, created_at, text, emb⟩

/-- The `for r in reader` loop of the ingestion job: rows processed in
order, each non-skipped row issuing exactly one insert. -/
def ingestInserts (embedFn : String → List ℚ) :
    List (List (String × String)) → List InsertRow
  | [] => []
  | r :: rs =>
    match ingestRow embedFn r with
    | some ins => ins :: ingestInserts embedFn rs
    | none => ingestInserts embedFn rs

/-- Python `str()` on the modelled values, as interpolated into the
templates (the display of a float is simplified; no claim depends on it). -/
def pyStr : Value → String
  | .vNone => "None"
  | .vInt n => toString n
  | .vNum q => toString q
  | .vStr s => s

/-- `"{0:.3f}"`-style rendering of a number to three decimals (Python
rounds half-to-even; the tie-rounding convention is immaterial here). -/
def fmt3 (q : ℚ) : String :=
  let m : Int := round (q * 1000)
  let sign := if m < 0 then "-" else ""
  let n := m.natAbs
  let frac := toString (n % 1000)
  sign ++ toString (n / 1000) ++ "." ++
    String.mk (List.replicate (3 - frac.length) '0') ++ frac

/-- The `sim {...:.3f}` interpolation applied to `e.get("similarity", 0)`
(a non-numeric value would make Python's format raise; rendered as a marker
here, which no claim depends on). -/
def fmtSim : Value → String
  | .vNum q => fmt3 q
  | .vInt n => fmt3 (n : ℚ)
  | _ => "FORMAT-ERROR"

/-- `run_agentic_analysis` of `scripts/pm_agent.py`: a static markdown
template whose only dynamic content is the evidence bullet list, one line
per evidence dict; the `question` parameter is accepted but never read. -/
def run_agentic_analysis (question : String)
    (evidence : List (List (String × Value))) : String :=
  let evidence_lines := evidence.map (fun e =>
    "- Evidence #" ++ pyStr ((getKey e "evidence_id").getD (.vStr "?")) ++
    " (" ++ pyStr ((getKey e "platform").getD (.vStr "?")) ++ " " ++
    pyStr ((getKey e "country").getD (.vStr "?")) ++ ", sim " ++
    fmtSim ((getKey e "similarity").getD (.vInt 0)) ++ "): " ++
    pyStr ((getKey e "text").getD (.vStr "")))
  let md :=
    "\n## Summary\nPayment failures on Android may be caused by a mix of **UI confusion** (users think payment failed, abandon, or mis-tap) and **platform-specific integration issues** (SDK, network, or auth differences).\n\n## What the evidence suggests\n"
    ++ (if !evidence_lines.isEmpty then String.intercalate "\n" evidence_lines
        else "- No evidence retrieved.")
    ++ "\n\n## Likely root-cause buckets\n- **UI/UX:** confusing CTA, unclear error states, payment method selection friction, redirect issues\n- **Integration:** Android SDK mismatch, webview/3DS handoff problems, billing permissions, play services\n- **Backend:** idempotency handling, gateway error mapping, retries causing double-fail perception\n\n## Recommended next steps\n- Add **structured logging** on Android payment flow (start → method selected → auth → confirmation).\n- Compare Android vs iOS funnel: **attempt rate, auth-fail rate, drop-off step**.\n- Run targeted testing on Android devices with varied OS versions + network conditions.\n\n## Follow-up questions\n- Are there Android-specific error logs or user reports tied to payment failures?\n- Is Android payment UI identical to iOS, or are there platform-specific differences?\n- What is the payment failure rate on Android vs iOS?\n"
  pyStrip md

/-- `generate_weekly_pm_brief` of `scripts/weekly_pm_brief.py`: a static
markdown template whose only dynamic content is the comma-joined list of
evidence ids; the `question` parameter is accepted but never read. -/
def generate_weekly_pm_brief (question : String)
    (evidence : List (List (String × Value))) : String :=
  let evidence_ids := evidence.filterMap (fun e =>
    match getKey e "evidence_id" with
    | some v => if v = .vNone then none else some (pyStr v)
    | none => none)
  let evidence_ids_txt :=
    if !evidence_ids.isEmpty then String.intercalate ", " evidence_ids else "None"
  let md :=
    "\n## Weekly PM Brief — Payments Reliability\n\n### This week’s headline\nInvestigate Android payment failures end-to-end and validate whether the issue is **technical**, **UX-driven**, or both.\n\n### Why it matters\nPayment failures directly impact **conversion**, **revenue**, and **user trust**. Android-specific issues can quietly grow if we don’t measure funnel drop-offs by platform.\n\n### Evidence used\n- Evidence IDs: "
    ++ evidence_ids_txt
    ++ "\n\n### What we think is happening\n- Users may be experiencing **confusing payment UI states** (success/failure ambiguity).\n- There may be Android-only **handoff/auth/SDK** issues (e.g., 3DS, webview redirects, device/network variance).\n\n### Metrics to watch\n- Payment funnel by step (Android vs iOS): attempt → auth → confirm → success\n- Failure reasons distribution (gateway codes mapped to user-visible errors)\n- Drop-off rate at “confirm payment” step\n\n### Proposed plan (next 5 days)\n- Day 1–2: add logs + dashboard for Android payment steps\n- Day 3: replicate on top devices/OS versions; capture screen recordings\n- Day 4: ship quick UX patch for error states if needed\n- Day 5: validate impact with funnel deltas + support ticket trend\n\n### Risks / dependencies\n- Payment provider SDK version differences\n- Error mapping may be hiding true causes (generic “failed”)\n\n### Draft Jira ticket (copy/paste)\n**Title:** Investigate and Resolve Payment Failures on Android  \n**Severity:** S2  \n**Problem:** Reports of payment failures on Android with unclear cause; evidence suggests possible UI confusion patterns.  \n**Acceptance Criteria:**  \n- Funnel + error logging added for Android payment flow  \n- Failure rate measured and compared vs iOS  \n- Root cause identified (UX vs integration vs backend)  \n- Fix deployed + verified via metrics improvement\n"
  pyStrip md

/-- The score a result record carries under the given key (`0` as a
placeholder when absent; the store always supplies a number). -/
def scoreOf (key : String) (r : List (String × Value)) : ℚ :=
  match getKey r key with
  | some (.vNum q) => q
  | _ => 0

/-- The sequence of scores of a result list under the given key. -/
def simScores (key : String) : List (List (String × Value)) → List ℚ
  | [] => []
  | r :: rs => scoreOf key r :: simScores key rs

theorem mem_insertByKey {α : Type} (key : α → ℚ) (x : α) :
    ∀ (l : List α) (y : α), y ∈ insertByKey key x l → y = x ∨ y ∈ l := by
  intro l
  induction l with
  | nil =>
    intro y hy
    simp only [insertByKey, List.mem_singleton] at hy
    exact Or.inl hy
  | cons z zs ih =>
    intro y hy
    by_cases h : key x ≤ key z
    · simp only [insertByKey, if_pos h, List.mem_cons] at hy
      rcases hy with h1 | h1 | h1
      · exact Or.inl h1
      · exact Or.inr (by simp [h1])
      · exact Or.inr (by simp [h1])
    · simp only [insertByKey, if_neg h, List.mem_cons] at hy
      rcases hy with h1 | h1
      · exact Or.inr (by simp [h1])
      · rcases ih y h1 with h2 | h2
        · exact Or.inl h2
        · exact Or.inr (by simp [h2])

theorem pairwise_insertByKey {α : Type} (key : α → ℚ) (x : α) :
    ∀ l : List α, List.Pairwise (fun a b => key a ≤ key b) l →
      List.Pairwise (fun a b => key a ≤ key b) (insertByKey key x l) := by
  intro l
  induction l with
  | nil => intro _; simp [insertByKey]
  | cons z zs ih =>
    intro h
    rw [List.pairwise_cons] at h
    by_cases hxz : key x ≤ key z
    · simp only [insertByKey, if_pos hxz]
      refine List.pairwise_cons.mpr ⟨?_, List.pairwise_cons.mpr h⟩
      intro y hy
      rcases List.mem_cons.mp hy with h1 | h1
      · exact h1 ▸ hxz
      · exact le_trans hxz (h.1 y h1)
    · simp only [insertByKey, if_neg hxz]
      refine List.pairwise_cons.mpr ⟨?_, ih h.2⟩
      intro y hy
      rcases mem_insertByKey key x zs y hy with h1 | h1
      · exact h1 ▸ le_of_not_le hxz
      · exact h.1 y h1

theorem pairwise_sortByKey {α : Type} (key : α → ℚ) :
    ∀ l : List α, List.Pairwise (fun a b => key a ≤ key b) (sortByKey key l) := by
  intro l
  induction l with
  | nil => simp [sortByKey]
  | cons x xs ih => exact pairwise_insertByKey key x _ ih

theorem pairwise_runQuery (table : List FeedbackRow) (dist : List ℚ → List ℚ → ℚ)
    (qvec : List ℚ) (preds : List (String × String)) (k : Nat) :
    List.Pairwise (fun a b => dist a.embedding qvec ≤ dist b.embedding qvec)
      (runQuery table dist qvec preds k) :=
  List.Pairwise.sublist (List.take_sublist k _)
    (pairwise_sortByKey (fun (r : FeedbackRow) => dist r.embedding qvec)
      (table.filter (rowMatches preds)))

theorem length_runQuery (table : List FeedbackRow) (dist : List ℚ → List ℚ → ℚ)
    (qvec : List ℚ) (preds : List (String × String)) (k : Nat) :
    (runQuery table dist qvec preds k).length ≤ k :=
  List.length_take_le k _

theorem map_rows_map_ok (f : FeedbackRow → ℚ) :
    ∀ l : List FeedbackRow,
      map_rows (l.map (fun r => [r.id, .vStr r.text, r.country, r.platform,
          r.rating, .vNum (f r)])) =
        .ok (l.map (fun r => [("id", r.id), ("text", .vStr r.text),
          ("country", r.country), ("platform", r.platform),
          ("rating", r.rating), ("similarity", .vNum (f r))])) := by
  intro l
  induction l with
  | nil => rfl
  | cons r rs ih => simp [map_rows, map_row, pyFloat, ih]

theorem simScores_map_similarity (f : FeedbackRow → ℚ) :
    ∀ l : List FeedbackRow,
      simScores "similarity" (l.map (fun r => [("id", r.id), ("text", .vStr r.text),
          ("country", r.country), ("platform", r.platform),
          ("rating", r.rating), ("similarity", .vNum (f r))])) = l.map f := by
  intro l
  induction l with
  | nil => rfl
  | cons r rs ih => simp [simScores, scoreOf, getKey, ih]

theorem simScores_map_score (f : FeedbackRow → ℚ) :
    ∀ l : List FeedbackRow,
      simScores "score" (l.map (fun r => [("id", r.id), ("country", r.country),
          ("platform", r.platform), ("rating", r.rating),
          ("text", .vStr r.text), ("score", .vNum (f r))])) = l.map f := by
  intro l
  induction l with
  | nil => rfl
  | cons r rs ih => simp [simScores, scoreOf, getKey, ih]

/-- On a valid configuration and a non-blank question, the façade reduces to
ranking, scoring and mapping: one provider call, one store query. -/
theorem search_feedback_valid_eq (env : Env) (embedFn : String → List ℚ)
    (dist : List ℚ → List ℚ → ℚ) (table : List FeedbackRow)
    (query : Option String) (k : Nat) (country platform user_type : Option String)
    (hdb : truthy env.SUPABASE_DB_URL = true)
    (hq : pyStrip (query.getD "") ≠ "")
    (hkey : truthy env.OPENAI_API_KEY = true) :
    search_feedback env embedFn dist table query k country platform user_type =
      (.ok ((runQuery table dist (embedFn (pyStrip (query.getD "")))
          (matchFeedbackPreds country platform user_type) k).map
        (fun r => [("id", r.id), ("text", .vStr r.text), ("country", r.country),
          ("platform", r.platform), ("rating", r.rating),
          ("similarity", .vNum (1 - dist r.embedding
            (embedFn (pyStrip (query.getD "")))))])), ⟨1, 1⟩) := by
  simp [search_feedback, hdb, hq, hkey, match_feedback, map_rows_map_ok]

/-- C1: for every question that is empty or whitespace-only after trimming,
the retrieval façade `search_feedback` (`scripts/search_feedback.py`, the
implementation `app/app.py` imports) returns an empty sequence with zero
embedding-provider calls and zero store queries.  (The `SUPABASE_DB_URL`
configuration check precedes the short-circuit in the source, hence the
hypothesis that it passes.) -/
theorem blank_question_short_circuits (env : Env) (embedFn : String → List ℚ)
    (dist : List ℚ → List ℚ → ℚ) (table : List FeedbackRow)
    (query : Option String) (k : Nat) (country platform user_type : Option String)
    (hq : pyStrip (query.getD "") = "")
    (hdb : truthy env.SUPABASE_DB_URL = true) :
    search_feedback env embedFn dist table query k country platform user_type =
      (.ok [], ⟨0, 0⟩) := by
  simp [search_feedback, hdb, hq]

theorem blank_question_short_circuits_witness :
    search_feedback ⟨some "postgresql-url", some "api-key", none⟩
      (fun _ => []) (fun _ _ => 0) [] (some "   ") 5 none none none =
      (.ok [], ⟨0, 0⟩) :=
  blank_question_short_circuits _ _ _ _ _ _ _ _ _ (by decide) (by decide)

/-- C6: when the store connection URL or the provider API key is absent, the
façade raises the corresponding configuration error before any provider call
or store query (zero of each); the missing API key is detected inside
`get_client` once a non-blank question reaches the embedding step. -/
theorem missing_config_raises (env : Env) (embedFn : String → List ℚ)
    (dist : List ℚ → List ℚ → ℚ) (table : List FeedbackRow)
    (query : Option String) (k : Nat) (country platform user_type : Option String)
    (h : truthy env.SUPABASE_DB_URL = false ∨
         (truthy env.OPENAI_API_KEY = false ∧ pyStrip (query.getD "") ≠ "")) :
    search_feedback env embedFn dist table query k country platform user_type =
      (.error "Missing SUPABASE_DB_URL in .env", ⟨0, 0⟩) ∨
    search_feedback env embedFn dist table query k country platform user_type =
      (.error "Missing OPENAI_API_KEY in .env", ⟨0, 0⟩) := by
  rcases h with h | ⟨h1, h2⟩
  · exact Or.inl (by simp [search_feedback, h])
  · rcases Bool.eq_false_or_eq_true (truthy env.SUPABASE_DB_URL) with hdb | hdb
    · exact Or.inr (by simp [search_feedback, hdb, h1, h2])
    · exact Or.inl (by simp [search_feedback, hdb])

theorem missing_config_raises_witness :
    search_feedback ⟨none, some "api-key", none⟩ (fun _ => []) (fun _ _ => 0) []
        (some "why do android payments fail") 5 none none none =
      (.error "Missing SUPABASE_DB_URL in .env", ⟨0, 0⟩) ∨
    search_feedback ⟨none, some "api-key", none⟩ (fun _ => []) (fun _ _ => 0) []
        (some "why do android payments fail") 5 none none none =
      (.error "Missing OPENAI_API_KEY in .env", ⟨0, 0⟩) :=
  missing_config_raises _ _ _ _ _ _ _ _ _ (Or.inl (by decide))

/-- C9: when the store returns zero rows for a non-empty question, the
façade returns an empty sequence — not an error — having called the
provider and the store once each. -/
theorem zero_rows_empty_result (env : Env) (embedFn : String → List ℚ)
    (dist : List ℚ → List ℚ → ℚ) (table : List FeedbackRow)
    (query : Option String) (k : Nat) (country platform user_type : Option String)
    (hdb : truthy env.SUPABASE_DB_URL = true)
    (hkey : truthy env.OPENAI_API_KEY = true)
    (hq : pyStrip (query.getD "") ≠ "")
    (hrows : match_feedback table dist (embedFn (pyStrip (query.getD ""))) k
        country platform user_type = []) :
    search_feedback env embedFn dist table query k country platform user_type =
      (.ok [], ⟨1, 1⟩) := by
  simp [search_feedback, hdb, hkey, hq, hrows, map_rows]

theorem zero_rows_empty_result_witness :
    search_feedback ⟨some "postgresql-url", some "api-key", none⟩
      (fun _ => []) (fun _ _ => 0) [] (some "any question") 5 none none none =
      (.ok [], ⟨1, 1⟩) :=
  zero_rows_empty_result _ _ _ _ _ _ _ _ _ (by decide) (by decide) (by decide) rfl

/-- C10: the two templated generators never read their `question` argument:
for any two questions and the same evidence list both produce identical
markdown, so each is a function of the evidence alone. -/
theorem generators_question_independent (q1 q2 : String)
    (evidence : List (List (String × Value))) :
    run_agentic_analysis q1 evidence = run_agentic_analysis q2 evidence ∧
    generate_weekly_pm_brief q1 evidence = generate_weekly_pm_brief q2 evidence :=
  ⟨rfl, rfl⟩

/-- C3: a filter key whose value is `None` or blank contributes no equality
predicate, a non-blank key exactly one, AND-conjoined in the WHERE clause,
which is empty when every value is blank.  Covers the in-repo builder of
`src/agents/retrieval.py` (`platform`, `country`) and the spec-modelled
`match_feedback` predicates (`platform`, `country`, `user_type`). -/
theorem filters_blank_collapse (platform country user_type : Option String) :
    ((Retrieval.buildFilters platform country).countP (fun f => f.1 == "platform") =
      (if isActive platform then 1 else 0)) ∧
    ((Retrieval.buildFilters platform country).countP (fun f => f.1 == "country") =
      (if isActive country then 1 else 0)) ∧
    (Retrieval.where_clause (Retrieval.buildFilters platform country) =
      (if isActive platform then
        (if isActive country then
          "where platform = %(platform)s and country = %(country)s"
         else "where platform = %(platform)s")
       else (if isActive country then "where country = %(country)s" else ""))) ∧
    ((matchFeedbackPreds country platform user_type).countP (fun f => f.1 == "platform") =
      (if isActive platform then 1 else 0)) ∧
    ((matchFeedbackPreds country platform user_type).countP (fun f => f.1 == "country") =
      (if isActive country then 1 else 0)) ∧
    ((matchFeedbackPreds country platform user_type).countP (fun f => f.1 == "user_type") =
      (if isActive user_type then 1 else 0)) ∧
    ((matchFeedbackPreds country platform user_type).isEmpty =
      (!isActive country && !isActive platform && !isActive user_type)) := by
  rcases Bool.eq_false_or_eq_true (isActive platform) with hp | hp <;>
  rcases Bool.eq_false_or_eq_true (isActive country) with hc | hc <;>
  rcases Bool.eq_false_or_eq_true (isActive user_type) with hu | hu <;>
    (simp [Retrieval.buildFilters, Retrieval.where_clause, matchFeedbackPreds,
      hp, hc, hu, String.intercalate]
     <;> decide)

/-- With a connection string present, the duplicate implementation reduces to
ranking, scoring and mapping with the `score` key. -/
theorem retrieval_search_valid_eq (env : Env) (embedFn : String → List ℚ)
    (dist : List ℚ → List ℚ → ℚ) (table : List FeedbackRow)
    (question : String) (k : Nat) (platform country : Option String)
    (hdb : truthy env.SUPABASE_DB_URL = true) :
    Retrieval.search_feedback env embedFn dist table question k platform country =
      (.ok ((runQuery table dist (embedFn question)
          (Retrieval.buildFilters platform country) k).map
        (fun r => [("id", r.id), ("country", r.country), ("platform", r.platform),
          ("rating", r.rating), ("text", .vStr r.text),
          ("score", .vNum (1 - dist r.embedding (embedFn question)))])), ⟨1, 1⟩) := by
  simp [Retrieval.search_feedback, hdb]

/-- Scoring `1 − distance` over rows ranked by ascending distance yields a
non-increasing sequence. -/
theorem scores_antitone (table : List FeedbackRow) (dist : List ℚ → List ℚ → ℚ)
    (qvec : List ℚ) (preds : List (String × String)) (k : Nat) :
    List.Pairwise (fun a b => b ≤ a)
      ((runQuery table dist qvec preds k).map (fun r => 1 - dist r.embedding qvec)) := by
  rw [List.pairwise_map]
  exact (pairwise_runQuery table dist qvec preds k).imp
    (fun hab => sub_le_sub_left hab 1)

/-- C4: for a non-blank question and positive `top_k`, the sequence returned
by `search` has length at most `top_k` and monotonically non-increasing
similarity scores.  Proved for the façade (`scripts/search_feedback.py`,
scores under `similarity`) and for the duplicate (`src/agents/retrieval.py`,
scores under `score`), both of which rank by ascending distance and score
rows `1 − distance`. -/
theorem search_topk_sorted (env : Env) (embedFn : String → List ℚ)
    (dist : List ℚ → List ℚ → ℚ) (table : List FeedbackRow)
    (query : Option String) (question : String) (k : Nat)
    (country platform user_type : Option String)
    (res res' : List (List (String × Value))) (log log' : CallLog)
    (hq : pyStrip (query.getD "") ≠ "") (hk : 0 < k)
    (h1 : search_feedback env embedFn dist table query k country platform user_type =
      (.ok res, log))
    (h2 : Retrieval.search_feedback env embedFn dist table question k platform country =
      (.ok res', log')) :
    (res.length ≤ k ∧ List.Pairwise (fun a b => b ≤ a) (simScores "similarity" res)) ∧
    (res'.length ≤ k ∧ List.Pairwise (fun a b => b ≤ a) (simScores "score" res')) := by
  rcases Bool.eq_false_or_eq_true (truthy env.SUPABASE_DB_URL) with hdb | hdb
  · rcases Bool.eq_false_or_eq_true (truthy env.OPENAI_API_KEY) with hkey | hkey
    · rw [search_feedback_valid_eq env embedFn dist table query k country platform
        user_type hdb hq hkey] at h1
      rw [retrieval_search_valid_eq env embedFn dist table question k platform
        country hdb] at h2
      have hres : res = (runQuery table dist (embedFn (pyStrip (query.getD "")))
          (matchFeedbackPreds country platform user_type) k).map
            (fun r => [("id", r.id), ("text", .vStr r.text), ("country", r.country),
              ("platform", r.platform), ("rating", r.rating),
              ("similarity", .vNum (1 - dist r.embedding
                (embedFn (pyStrip (query.getD "")))))]) :=
        (Except.ok.inj (congrArg Prod.fst h1)).symm
      have hres' : res' = (runQuery table dist (embedFn question)
          (Retrieval.buildFilters platform country) k).map
            (fun r => [("id", r.id), ("country", r.country), ("platform", r.platform),
              ("rating", r.rating), ("text", .vStr r.text),
              ("score", .vNum (1 - dist r.embedding (embedFn question)))]) :=
        (Except.ok.inj (congrArg Prod.fst h2)).symm
      subst hres
      subst hres'
      refine ⟨⟨?_, ?_⟩, ?_, ?_⟩
      · rw [List.length_map]; exact length_runQuery _ _ _ _ _
      · rw [simScores_map_similarity]; exact scores_antitone _ _ _ _ _
      · rw [List.length_map]; exact length_runQuery _ _ _ _ _
      · rw [simScores_map_score]; exact scores_antitone _ _ _ _ _
    · simp [search_feedback, hdb, hq, hkey] at h1
  · simp [search_feedback, hdb] at h1

theorem search_topk_sorted_witness :
    (([[("id", Value.vInt 1), ("text", Value.vStr "great"), ("country", Value.vNone),
        ("platform", Value.vNone), ("rating", Value.vNone),
        ("similarity", Value.vNum (1 - 0))]] :
          List (List (String × Value))).length ≤ 3 ∧
      List.Pairwise (fun a b => b ≤ a) (simScores "similarity"
        [[("id", Value.vInt 1), ("text", Value.vStr "great"), ("country", Value.vNone),
          ("platform", Value.vNone), ("rating", Value.vNone),
          ("similarity", Value.vNum (1 - 0))]])) ∧
    (([[("id", Value.vInt 1), ("country", Value.vNone), ("platform", Value.vNone),
        ("rating", Value.vNone), ("text", Value.vStr "great"),
        ("score", Value.vNum (1 - 0))]] :
          List (List (String × Value))).length ≤ 3 ∧
      List.Pairwise (fun a b => b ≤ a) (simScores "score"
        [[("id", Value.vInt 1), ("country", Value.vNone), ("platform", Value.vNone),
          ("rating", Value.vNone), ("text", Value.vStr "great"),
          ("score", Value.vNum (1 - 0))]])) :=
  search_topk_sorted ⟨some "postgresql-url", some "api-key", none⟩
    (fun _ => []) (fun _ _ => 0)
    [⟨Value.vInt 1, Value.vStr "app_reviews", Value.vNone, Value.vNone,
      Value.vNone, Value.vNone, "great", []⟩]
    (some "pay") "pay" 3 none none none _ _ _ _ (by decide) (by decide) rfl rfl

/-- C5: every record returned by the façade exposes at least the fields
`id`, `platform`, `country`, `rating`, `text` and `similarity` under those
names. -/
theorem search_record_fields (env : Env) (embedFn : String → List ℚ)
    (dist : List ℚ → List ℚ → ℚ) (table : List FeedbackRow)
    (query : Option String) (k : Nat) (country platform user_type : Option String)
    (res : List (List (String × Value))) (log : CallLog)
    (h : search_feedback env embedFn dist table query k country platform user_type =
      (.ok res, log)) :
    ∀ r ∈ res, (getKey r "id").isSome ∧ (getKey r "platform").isSome ∧
      (getKey r "country").isSome ∧ (getKey r "rating").isSome ∧
      (getKey r "text").isSome ∧ (getKey r "similarity").isSome := by
  rcases Bool.eq_false_or_eq_true (truthy env.SUPABASE_DB_URL) with hdb | hdb
  · by_cases hq : pyStrip (query.getD "") = ""
    · simp only [search_feedback, hdb, Bool.true_eq_false, if_false, hq, if_true,
        if_pos] at h
      have hres : res = [] := (Except.ok.inj (congrArg Prod.fst h)).symm
      subst hres
      intro r hr
      exact absurd hr (List.not_mem_nil r)
    · rcases Bool.eq_false_or_eq_true (truthy env.OPENAI_API_KEY) with hkey | hkey
      · rw [search_feedback_valid_eq env embedFn dist table query k country platform
          user_type hdb hq hkey] at h
        have hres : res = (runQuery table dist (embedFn (pyStrip (query.getD "")))
            (matchFeedbackPreds country platform user_type) k).map
              (fun r => [("id", r.id), ("text", .vStr r.text), ("country", r.country),
                ("platform", r.platform), ("rating", r.rating),
                ("similarity", .vNum (1 - dist r.embedding
                  (embedFn (pyStrip (query.getD "")))))]) :=
          (Except.ok.inj (congrArg Prod.fst h)).symm
        subst hres
        intro r hr
        rw [List.mem_map] at hr
        obtain ⟨row, _, rfl⟩ := hr
        simp [getKey]
      · simp [search_feedback, hdb, hq, hkey] at h
  · simp [search_feedback, hdb] at h

theorem search_record_fields_witness :
    (getKey [("id", Value.vInt 1), ("text", Value.vStr "great"),
        ("country", Value.vNone), ("platform", Value.vNone),
        ("rating", Value.vNone), ("similarity", Value.vNum (1 - 0))] "id").isSome ∧
    (getKey [("id", Value.vInt 1), ("text", Value.vStr "great"),
        ("country", Value.vNone), ("platform", Value.vNone),
        ("rating", Value.vNone), ("similarity", Value.vNum (1 - 0))] "platform").isSome ∧
    (getKey [("id", Value.vInt 1), ("text", Value.vStr "great"),
        ("country", Value.vNone), ("platform", Value.vNone),
        ("rating", Value.vNone), ("similarity", Value.vNum (1 - 0))] "country").isSome ∧
    (getKey [("id", Value.vInt 1), ("text", Value.vStr "great"),
        ("country", Value.vNone), ("platform", Value.vNone),
        ("rating", Value.vNone), ("similarity", Value.vNum (1 - 0))] "rating").isSome ∧
    (getKey [("id", Value.vInt 1), ("text", Value.vStr "great"),
        ("country", Value.vNone), ("platform", Value.vNone),
        ("rating", Value.vNone), ("similarity", Value.vNum (1 - 0))] "text").isSome ∧
    (getKey [("id", Value.vInt 1), ("text", Value.vStr "great"),
        ("country", Value.vNone), ("platform", Value.vNone),
        ("rating", Value.vNone), ("similarity", Value.vNum (1 - 0))] "similarity").isSome :=
  search_record_fields ⟨some "postgresql-url", some "api-key", none⟩
    (fun _ => []) (fun _ _ => 0)
    [⟨Value.vInt 1, Value.vStr "app_reviews", Value.vNone, Value.vNone,
      Value.vNone, Value.vNone, "great", []⟩]
    (some "pay") 3 none none none _ _ rfl
    [("id", Value.vInt 1), ("text", Value.vStr "great"), ("country", Value.vNone),
     ("platform", Value.vNone), ("rating", Value.vNone),
     ("similarity", Value.vNum (1 - 0))]
    (List.mem_singleton.mpr rfl)

/-- A successful mapping has one output record per input row, in order. -/
theorem map_rows_ok_get :
    ∀ (rows : List (List Value)) (res : List (List (String × Value))),
      map_rows rows = .ok res →
      res.length = rows.length ∧
      ∀ (i : Nat) (hi : i < rows.length) (hi' : i < res.length),
        map_row (rows.get ⟨i, hi⟩) = .ok (res.get ⟨i, hi'⟩) := by
  intro rows
  induction rows with
  | nil =>
    intro res h
    simp only [map_rows] at h
    have : [] = res := Except.ok.inj h
    subst this
    exact ⟨rfl, fun i hi _ => absurd hi (by simp)⟩
  | cons r rs ih =>
    intro res h
    simp only [map_rows] at h
    cases hm : map_row r with
    | error e => rw [hm] at h; cases h
    | ok m =>
      rw [hm] at h
      cases hms : map_rows rs with
      | error e => rw [hms] at h; cases h
      | ok ms =>
        rw [hms] at h
        have : m :: ms = res := Except.ok.inj h
        subst this
        obtain ⟨ihlen, ihget⟩ := ih ms hms
        refine ⟨by simp [ihlen], ?_⟩
        intro i hi hi'
        cases i with
        | zero => simpa using hm
        | succ n =>
          have hn : n < rs.length := by simpa using hi
          have hn' : n < ms.length := by simpa using hi'
          simpa using ihget n hn hn'

/-- C7: the Result Mapper's output has the same length as the input row
sequence and its i-th record is the mapping of the i-th row — output order
matches input row order. -/
theorem mapper_preserves_order (rows : List (List Value))
    (res : List (List (String × Value))) (h : map_rows rows = .ok res) :
    res.length = rows.length ∧
    ∀ (i : Nat) (hi : i < rows.length) (hi' : i < res.length),
      map_row (rows.get ⟨i, hi⟩) = .ok (res.get ⟨i, hi'⟩) :=
  map_rows_ok_get rows res h

theorem mapper_preserves_order_witness :
    ([[("id", Value.vInt 3), ("text", Value.vStr "crash on pay"),
       ("country", Value.vStr "DE"), ("platform", Value.vStr "android"),
       ("rating", Value.vInt 1), ("similarity", Value.vNum 0)]] :
        List (List (String × Value))).length =
      ([[Value.vInt 3, Value.vStr "crash on pay", Value.vStr "DE",
         Value.vStr "android", Value.vInt 1, Value.vNum 0]] :
        List (List Value)).length ∧
    map_row (([[Value.vInt 3, Value.vStr "crash on pay", Value.vStr "DE",
         Value.vStr "android", Value.vInt 1, Value.vNum 0]] :
        List (List Value)).get ⟨0, by decide⟩) =
      .ok (([[("id", Value.vInt 3), ("text", Value.vStr "crash on pay"),
       ("country", Value.vStr "DE"), ("platform", Value.vStr "android"),
       ("rating", Value.vInt 1), ("similarity", Value.vNum 0)]] :
        List (List (String × Value))).get ⟨0, by decide⟩) :=
  ⟨(mapper_preserves_order
      [[Value.vInt 3, Value.vStr "crash on pay", Value.vStr "DE",
        Value.vStr "android", Value.vInt 1, Value.vNum 0]]
      [[("id", Value.vInt 3), ("text", Value.vStr "crash on pay"),
        ("country", Value.vStr "DE"), ("platform", Value.vStr "android"),
        ("rating", Value.vInt 1), ("similarity", Value.vNum 0)]] rfl).1,
   (mapper_preserves_order
      [[Value.vInt 3, Value.vStr "crash on pay", Value.vStr "DE",
        Value.vStr "android", Value.vInt 1, Value.vNum 0]]
      [[("id", Value.vInt 3), ("text", Value.vStr "crash on pay"),
        ("country", Value.vStr "DE"), ("platform", Value.vStr "android"),
        ("rating", Value.vInt 1), ("similarity", Value.vNum 0)]] rfl).2
      0 (by decide) (by decide)⟩

/-- A successful row mapping forces the row to have exactly the six
documented fields, with the score parseable and every value copied. -/
theorem map_row_ok_inv (r : List Value) (m : List (String × Value))
    (h : map_row r = .ok m) :
    ∃ a b c d e f q, r = [a, b, c, d, e, f] ∧ pyFloat f = .ok q ∧
      m = [("id", a), ("text", b), ("country", c), ("platform", d),
           ("rating", e), ("similarity", .vNum q)] := by
  rcases r with _ | ⟨a, r⟩
  · simp [map_row] at h
  rcases r with _ | ⟨b, r⟩
  · simp [map_row] at h
  rcases r with _ | ⟨c, r⟩
  · simp [map_row] at h
  rcases r with _ | ⟨d, r⟩
  · simp [map_row] at h
  rcases r with _ | ⟨e, r⟩
  · simp [map_row] at h
  rcases r with _ | ⟨f, r⟩
  · simp [map_row] at h
  rcases r with _ | ⟨g, r⟩
  · simp only [map_row] at h
    cases hf : pyFloat f with
    | error msg => rw [hf] at h; cases h
    | ok q =>
      rw [hf] at h
      exact ⟨a, b, c, d, e, f, q, rfl, hf, (Except.ok.inj h).symm⟩
  · simp [map_row] at h

/-- C2 (counterexample): a row whose score does not parse as a float makes
the mapper raise a `ValueError` — the score is not defaulted to `0.0`. -/
theorem map_rows_unparseable_score_raises :
    map_rows [[Value.vInt 7, Value.vStr "great app", Value.vStr "US",
      Value.vStr "ios", Value.vInt 5, Value.vStr "n/a"]] =
      .error "ValueError: could not convert string to float: n/a" := by decide

/-- C2 (amended): the mapper copies each well-formed row's field values
verbatim — `id, text, country, platform, rating` unchanged, the score
through `float` — and a row of the wrong arity or with an unparseable score
makes the whole mapping raise rather than yield a defaulted record. -/
theorem map_rows_copies_values_or_raises :
    (∀ (rows : List (List Value)) (res : List (List (String × Value))),
      map_rows rows = .ok res →
      ∀ (i : Nat) (hi : i < rows.length) (hi' : i < res.length),
        ∃ a b c d e f q, rows.get ⟨i, hi⟩ = [a, b, c, d, e, f] ∧
          pyFloat f = .ok q ∧
          res.get ⟨i, hi'⟩ = [("id", a), ("text", b), ("country", c),
            ("platform", d), ("rating", e), ("similarity", .vNum q)]) ∧
    (∀ (rows : List (List Value)) (r : List Value) (msg : String),
      r ∈ rows → map_row r = .error msg →
      ∃ e2, map_rows rows = .error e2) := by
  constructor
  · intro rows res h i hi hi'
    exact map_row_ok_inv _ _ ((map_rows_ok_get rows res h).2 i hi hi')
  · intro rows r msg hmem hr
    induction rows with
    | nil => cases hmem
    | cons r0 rs ih =>
      rcases List.mem_cons.mp hmem with rfl | hmem2
      · exact ⟨msg, by simp [map_rows, hr]⟩
      · cases hm : map_row r0 with
        | error e0 => exact ⟨e0, by simp [map_rows, hm]⟩
        | ok m =>
          obtain ⟨e2, he2⟩ := ih hmem2
          exact ⟨e2, by simp [map_rows, hm, he2]⟩

theorem map_rows_copies_values_or_raises_witness :
    (∃ a b c d e f q,
      ([[Value.vInt 9, Value.vStr "slow checkout", Value.vStr "IN",
         Value.vStr "android", Value.vNone, Value.vNum 0]] :
        List (List Value)).get ⟨0, by decide⟩ = [a, b, c, d, e, f] ∧
      pyFloat f = .ok q ∧
      ([[("id", Value.vInt 9), ("text", Value.vStr "slow checkout"),
         ("country", Value.vStr "IN"), ("platform", Value.vStr "android"),
         ("rating", Value.vNone), ("similarity", Value.vNum 0)]] :
        List (List (String × Value))).get ⟨0, by decide⟩ =
        [("id", a), ("text", b), ("country", c), ("platform", d),
         ("rating", e), ("similarity", Value.vNum q)]) ∧
    (∃ e2, map_rows [[Value.vStr "only one column"]] = .error e2) :=
  ⟨map_rows_copies_values_or_raises.1
     [[Value.vInt 9, Value.vStr "slow checkout", Value.vStr "IN",
       Value.vStr "android", Value.vNone, Value.vNum 0]]
     [[("id", Value.vInt 9), ("text", Value.vStr "slow checkout"),
       ("country", Value.vStr "IN"), ("platform", Value.vStr "android"),
       ("rating", Value.vNone), ("similarity", Value.vNum 0)]]
     rfl 0 (by decide) (by decide),
   map_rows_copies_values_or_raises.2 [[Value.vStr "only one column"]]
     [Value.vStr "only one column"] "ValueError: not enough values to unpack"
     (List.mem_singleton.mpr rfl) (by decide)⟩

/-- A non-empty stripped string contains a non-whitespace character (its
first character survives the leading strip). -/
theorem pyStrip_no_ws (s : String) (h : pyStrip s ≠ "") :
    (pyStrip s).data.all Char.isWhitespace = false := by
  cases hm : List.dropWhile Char.isWhitespace
      ((List.dropWhile Char.isWhitespace s.data).reverse) with
  | nil =>
    exfalso
    apply h
    simp [pyStrip, hm]
  | cons x xs =>
    have hx : Char.isWhitespace x = false := by
      have hh := List.head?_dropWhile_not Char.isWhitespace
        ((List.dropWhile Char.isWhitespace s.data).reverse)
      rw [hm] at hh
      simpa using hh
    have hmem : x ∈ (pyStrip s).data := by
      simp [pyStrip, hm]
    rw [List.all_eq_false]
    exact ⟨x, hmem, by simp [hx]⟩

/-- The ingestion loop skips a row exactly when its stripped text is empty. -/
theorem ingestRow_none_iff (embedFn : String → List ℚ) (r : List (String × String)) :
    ingestRow embedFn r = none ↔ pyStrip (orElseStr (csvGet r "text") "") = "" := by
  by_cases ht : pyStrip (orElseStr (csvGet r "text") "") = "" <;>
    simp [ingestRow, ht]

/-- An issued insert carries exactly the stripped, non-empty text of its
CSV row. -/
theorem ingestRow_some_inv (embedFn : String → List ℚ) (r : List (String × String))
    (ins : InsertRow) (h : ingestRow embedFn r = some ins) :
    ins.text = pyStrip (orElseStr (csvGet r "text") "") ∧
    pyStrip (orElseStr (csvGet r "text") "") ≠ "" := by
  by_cases ht : pyStrip (orElseStr (csvGet r "text") "") = ""
  · simp [ingestRow, ht] at h
  · refine ⟨?_, ht⟩
    simp [ingestRow, ht] at h
    rw [← h]

/-- Every insert comes from some row that produced it. -/
theorem ingestInserts_mem_inv (embedFn : String → List ℚ) :
    ∀ (rows : List (List (String × String))) (ins : InsertRow),
      ins ∈ ingestInserts embedFn rows →
      ∃ r ∈ rows, ingestRow embedFn r = some ins := by
  intro rows
  induction rows with
  | nil => intro ins h; simp [ingestInserts] at h
  | cons r0 rs ih =>
    intro ins h
    cases h0 : ingestRow embedFn r0 with
    | none =>
      simp only [ingestInserts, h0] at h
      obtain ⟨r, hr, hrs⟩ := ih ins h
      exact ⟨r, List.mem_cons_of_mem _ hr, hrs⟩
    | some i0 =>
      simp only [ingestInserts, h0] at h
      rcases List.mem_cons.mp h with rfl | h2
      · exact ⟨r0, List.mem_cons_self _ _, h0⟩
      · obtain ⟨r, hr, hrs⟩ := ih ins h2
        exact ⟨r, List.mem_cons_of_mem _ hr, hrs⟩

/-- C8: the ingestion job never persists a record with empty or
whitespace-only text: every issued insert carries non-blank text, a row
whose stripped text is empty issues no insert, and the number of inserts is
exactly the number of rows with non-blank text. -/
theorem ingest_never_persists_blank_text (embedFn : String → List ℚ)
    (rows : List (List (String × String))) :
    (∀ ins ∈ ingestInserts embedFn rows, ins.text ≠ "" ∧
      ins.text.data.all Char.isWhitespace = false) ∧
    (∀ r ∈ rows, pyStrip (orElseStr (csvGet r "text") "") = "" →
      ingestRow embedFn r = none) ∧
    (ingestInserts embedFn rows).length =
      rows.countP (fun r => !(pyStrip (orElseStr (csvGet r "text") "") == "")) := by
  refine ⟨?_, ?_, ?_⟩
  · intro ins hins
    obtain ⟨r, _, hr⟩ := ingestInserts_mem_inv embedFn rows ins hins
    obtain ⟨htext, hne⟩ := ingestRow_some_inv embedFn r ins hr
    rw [htext]
    exact ⟨hne, pyStrip_no_ws _ hne⟩
  · intro r _ hblank
    exact (ingestRow_none_iff embedFn r).mpr hblank
  · induction rows with
    | nil => rfl
    | cons r0 rs ih =>
      cases h0 : ingestRow embedFn r0 with
      | none =>
        have hb : pyStrip (orElseStr (csvGet r0 "text") "") = "" :=
          (ingestRow_none_iff embedFn r0).mp h0
        simp [ingestInserts, h0, List.countP_cons, hb, ih]
      | some i0 =>
        have hb := (ingestRow_some_inv embedFn r0 i0 h0).2
        have hb' : (pyStrip (orElseStr (csvGet r0 "text") "") == "") = false :=
          beq_eq_false_iff_ne.mpr hb
        simp [ingestInserts, h0, List.countP_cons, hb', ih]

theorem ingest_never_persists_blank_text_witness :
    ((⟨"app_reviews", Value.vNone, Value.vNone, Value.vNone, Value.vNone,
       Value.vNone, "hi", []⟩ : InsertRow).text ≠ "" ∧
     (⟨"app_reviews", Value.vNone, Value.vNone, Value.vNone, Value.vNone,
       Value.vNone, "hi", []⟩ : InsertRow).text.data.all Char.isWhitespace = false) ∧
    ingestRow (fun _ => ([] : List ℚ)) [("text", "   ")] = none :=
  ⟨(ingest_never_persists_blank_text (fun _ => [])
      [[("text", "  hi ")], [("text", "   ")]]).1
      ⟨"app_reviews", Value.vNone, Value.vNone, Value.vNone, Value.vNone,
       Value.vNone, "hi", []⟩ (by decide),
   (ingest_never_persists_blank_text (fun _ => [])
      [[("text", "   ")]]).2.1 [("text", "   ")] (by decide) (by decide)⟩

end VoC
